import Mathlib

/-!
Verification development for the EU circular-economy monitor demo
(`teknologiateollisuus/eu-tutka`).  The JavaScript source is shallowly
embedded: numbers are rationals (JS `null`/`undefined`/NaN observation
values are `Option.none`), objects are association lists, and the
network is an explicit oracle argument so that the set of issued
requests is observable.
-/

/- ## JS-semantics helpers -/

/-- Property read on a JS object literal (association list, unique keys). -/
def jsGet {α : Type} : List (String × α) → String → Option α
  | [], _ => none
  | kv :: rest, k => if kv.1 = k then some kv.2 else jsGet rest k

/-- JS `o || dflt` for a possibly-undefined string: `undefined` and the
empty string are falsy and select the default. -/
def jsOrDefault (o : Option String) (dflt : String) : String :=
  match o with
  | some s => if s = "" then dflt else s
  | none => dflt

/-- Membership test used to model `Array.prototype.includes` on string
arrays. -/
def listHas : List String → String → Bool
  | [], _ => false
  | x :: xs, a => if x = a then true else listHas xs a

/-- Needle is an initial run of the haystack (both as char lists). -/
def strHasPre : List Char → List Char → Bool
  | [], _ => true
  | _ :: _, [] => false
  | a :: as, b :: bs => if a = b then strHasPre as bs else false

/-- Needle occurs contiguously somewhere in the haystack. -/
def strHasSub (needle : List Char) : List Char → Bool
  | [] => strHasPre needle []
  | c :: cs => strHasPre needle (c :: cs) || strHasSub needle cs

/-- JS `s.includes(sub)`. -/
def strIncludes (s sub : String) : Bool := strHasSub sub.toList s.toList

/-- Lexicographic char-list comparison. -/
def charsLt : List Char → List Char → Bool
  | [], [] => false
  | [], _ :: _ => true
  | _ :: _, [] => false
  | a :: as, b :: bs => if a < b then true else if b < a then false else charsLt as bs

/-- JS `a < b` on strings: lexicographic by code unit. -/
def jsStrLt (a b : String) : Bool := charsLt a.toList b.toList

/-- Accumulate the leading decimal digits of a char list; `none` when no
digit was consumed (JS `parseInt` yields NaN in that case). -/
def digitsVal : List Char → Option ℕ → Option ℕ
  | [], acc => acc
  | c :: cs, acc =>
    if c.isDigit then digitsVal cs (some ((acc.getD 0) * 10 + (c.toNat - 48)))
    else acc

/-- JS `parseInt` restricted to the non-negative keys that occur as
SDMX-JSON observation keys: leading whitespace is skipped, then the
longest run of decimal digits is read; `none` models NaN.  A sign
character does not occur in observation keys and is not modelled here. -/
def jsParseNat (s : String) : Option ℕ :=
  digitsVal (s.toList.dropWhile Char.isWhitespace) none

/-- JS `parseInt` with an optional sign, as applied to year strings;
`none` models NaN. -/
def jsParseInt (s : String) : Option ℤ :=
  match s.toList.dropWhile Char.isWhitespace with
  | '-' :: rest => (digitsVal rest none).map (fun n => -(n : ℤ))
  | '+' :: rest => (digitsVal rest none).map (fun n => (n : ℤ))
  | l => (digitsVal l none).map (fun n => (n : ℤ))

/-- Pad a numeral string with leading zeros up to width `w`. -/
def padZeros (w : ℕ) (s : String) : String :=
  if s.length < w then String.mk (List.replicate (w - s.length) '0') ++ s else s

/-- JS `Number.prototype.toFixed(digits)`: the sign is split off, the
magnitude is scaled by `10 ^ digits` and rounded to the nearest integer
with a tie picking the larger value, and the result is rendered with
exactly `digits` decimals.  With `A = |q.num| * 10 ^ digits` and
`B = q.den`, the scaled magnitude `|q| * 10 ^ digits = A / B` rounds to
`(2 * A + B) / (2 * B)` in integer division, which is how it is
computed here. -/
def jsToFixed (digits : ℕ) (q : ℚ) : String :=
  let p := 10 ^ digits
  let scaled : ℕ := (2 * (q.num.natAbs * p) + q.den) / (2 * q.den)
  let sign := if q.num < 0 then "-" else ""
  let intPart := toString (scaled / p)
  if digits = 0 then sign ++ intPart
  else sign ++ intPart ++ "." ++ padZeros digits (toString (scaled % p))

/-- Multiplication of a rational by a natural, written on the numerator
so that it evaluates by `Nat`/`Int` arithmetic; `jsMulNat_eq` states
that it agrees with ordinary multiplication on `ℚ`. -/
def jsMulNat (q : ℚ) (n : ℕ) : ℚ := mkRat (q.num * n) q.den

/-- One half as a reduced rational constant (the literal `0.5` of the
source's compliance threshold). -/
def jsHalf : ℚ := mkRat 1 2

/- ## Normalized record type (demo.js `formatEurostatData` output shape) -/

/-- The document record the demo normalizer pushes for every retained
Eurostat observation.  The `indicator` and `value` fields are only set
on the hand-written sample documents; normalizer output leaves them
absent (`none`), matching the JS objects. -/
structure EuroDoc where
  date : String
  country : String
  countryName : String
  type : String
  typeName : String
  topic : String
  topicName : String
  title : String
  compliance : String
  sector : String
  source : String
  sourceUrl : String
  sourceBadge : String
  indicator : Option String := none
  value : Option String := none
deriving DecidableEq

/-- `indicatorNames` lookup table from `formatEurostatData`. -/
def indicatorNames : List (String × String) :=
  [("cei_srm030", "Circular Material Use Rate"),
   ("cei_wm011", "Municipal Waste Recycling"),
   ("cei_pc020", "Material Footprint"),
   ("cei_cie011", "Circular Economy Employment")]

/-- `countryMap` lookup table from `formatEurostatData`. -/
def countryMap : List (String × String) :=
  [("AT", "Austria"), ("BE", "Belgium"), ("BG", "Bulgaria"), ("HR", "Croatia"),
   ("CY", "Cyprus"), ("CZ", "Czech Republic"), ("DK", "Denmark"), ("DE", "Germany"),
   ("EE", "Estonia"), ("ES", "Spain"), ("FI", "Finland"), ("FR", "France"),
   ("GR", "Greece"), ("HU", "Hungary"), ("IE", "Ireland"), ("IT", "Italy"),
   ("LV", "Latvia"), ("LT", "Lithuania"), ("LU", "Luxembourg"), ("MT", "Malta"),
   ("NL", "Netherlands"), ("PL", "Poland"), ("PT", "Portugal"), ("RO", "Romania"),
   ("SK", "Slovakia"), ("SI", "Slovenia"), ("SE", "Sweden"),
   ("EU27_2020", "EU27"), ("EA20", "Eurozone"), ("OECD", "OECD Avg")]

/-- SDMX-JSON payload fragment consumed by the normalizer: the geo and
time category indexes (`dimension.geo.category.index`,
`dimension.time.category.index`), the optional declared dimension sizes
(`dimension.size`), and the observation map `value` in enumeration
order, with `none` for a `null` observation. -/
structure EurostatPayload where
  geoIndex : List (String × ℕ)
  timeIndex : List (String × ℕ)
  size : Option (List ℕ)
  value : List (String × Option ℚ)
deriving DecidableEq

/-- `data.dimension.size || [1, 1, |geo|, |time|]` (an array is truthy in
JS even when empty, so a present `size` is always taken). -/
def dimSizeOf (p : EurostatPayload) : List ℕ :=
  match p.size with
  | some s => s
  | none => [1, 1, p.geoIndex.length, p.timeIndex.length]

/-- Reverse index map built by the normalizer's `forEach` assignments
(`geoReverseMap[idx] = code`): the last entry carrying index `i` wins. -/
def reverseLookup (m : List (String × ℕ)) (i : ℕ) : Option String :=
  m.foldl (fun acc kv => if kv.2 = i then some kv.1 else acc) none

/-- JS `Number(x) || 0` on an optional split fragment, for the
colon-delimited key branch; non-numeric fragments (NaN) and missing
fragments collapse to 0 exactly as `indices[i] || 0` does. -/
def jsIdxOf (part : Option String) : ℕ :=
  match part with
  | none => 0
  | some s =>
    match digitsVal s.toList none with
    | some n => if s.toList.all Char.isDigit then n else 0
    | none => 0

/-- Recover `(geoIdx, timeIdx)` from one observation key, following the
two branches of `formatEurostatData`: a colon-delimited key takes
components 2 and 3, a plain key is parsed as a linear index and
decomposed row-major (`timeIdx = n % size[3]`,
`geoIdx = floor(n / size[3]) % size[2]`).  `none` models the NaN that JS
produces when the key does not parse or a divisor is 0. -/
def decomposeObsKey (dimSize : List ℕ) (obsKey : String) : Option ℕ × Option ℕ :=
  if strIncludes obsKey ":" then
    let parts := obsKey.splitOn ":"
    (some (jsIdxOf (parts.get? 2)), some (jsIdxOf (parts.get? 3)))
  else
    match jsParseNat obsKey with
    | none => (none, none)
    | some n =>
      let s3 := dimSize.getD 3 0
      let s2 := dimSize.getD 2 0
      (if s2 = 0 ∨ s3 = 0 then none else some (n / s3 % s2),
       if s3 = 0 then none else some (n % s3))

/-- The year-cutoff guard `if (parseInt(year) < 2018) return;`.  A year
string that does not parse gives NaN, every comparison with NaN is
false, and the record is kept. -/
def passesYearCutoff (year : String) : Bool :=
  match jsParseInt year with
  | none => true
  | some y => decide (2018 ≤ y)

/-- The value-formatting block of `formatEurostatData`: percentages are
scaled by 100 before `toFixed(1)`, the material footprint keeps its raw
scale, and anything else falls back to `toFixed(2)`. -/
def demoFormattedValue (indicator : String) (v : ℚ) : String :=
  if indicator = "cei_srm030" ∨ indicator = "cei_wm011" ∨ indicator = "cei_cie011" then
    jsToFixed 1 (jsMulNat v 100) ++ "%"
  else if indicator = "cei_pc020" then
    jsToFixed 1 v ++ " tonnes"
  else
    jsToFixed 2 v

/-- Topic classification by substring match on the indicator code. -/
def topicOfIndicator (indicator : String) : String :=
  if strIncludes indicator "srm" then "material"
  else if strIncludes indicator "wm" then "waste"
  else if strIncludes indicator "pc" then "footprint"
  else if strIncludes indicator "cie" then "employment"
  else "circular-economy"

/-- Build the document for one non-null observation, mirroring the body
of the `Object.entries(data.value).forEach` loop.  Note that the title
interpolates `indicatorNames[indicator]` without a fallback, so an
unknown indicator renders as the string "undefined" there, while
`topicName` uses the `|| indicator` fallback. -/
def formatEurostatObsCore (indicator : String) (geoIndex timeIndex : List (String × ℕ))
    (dimSize : List ℕ) (obsKey : String) (obsValue : ℚ) : Option EuroDoc :=
  let idxs := decomposeObsKey dimSize obsKey
  let geoCode := jsOrDefault (idxs.1.bind (reverseLookup geoIndex)) "EU27_2020"
  let year := jsOrDefault (idxs.2.bind (reverseLookup timeIndex)) "2023"
  if passesYearCutoff year then
    let countryName := jsOrDefault (jsGet countryMap geoCode) geoCode
    some
      { date := year ++ "-06-15"
        country := geoCode
        countryName := countryName
        type := "statistic"
        typeName := "Eurostat Data"
        topic := topicOfIndicator indicator
        topicName := jsOrDefault (jsGet indicatorNames indicator) indicator
        title := (countryName ++ " (" ++ year ++ "): " ++
                  (jsGet indicatorNames indicator).getD "undefined" ++ " ") ++
                 demoFormattedValue indicator obsValue
        compliance := if jsHalf < obsValue then "compliant" else "pending"
        sector := "circular-economy"
        source := "Eurostat"
        sourceUrl := "https://ec.europa.eu/eurostat/databrowser/view/" ++ indicator ++
                     "/default/table"
        sourceBadge := "blue" }
  else none

/-- One `forEach` iteration as an optional document: a `null`/`undefined`
observation is skipped outright, otherwise the body runs. -/
def formatEurostatEntry (indicator : String) (geoIndex timeIndex : List (String × ℕ))
    (dimSize : List ℕ) (kv : String × Option ℚ) : Option EuroDoc :=
  match kv.2 with
  | none => none
  | some v => formatEurostatObsCore indicator geoIndex timeIndex dimSize kv.1 v

/-- demo.js `formatEurostatData`: guard for a present payload, then fold
over the observation entries pushing the produced documents in order.
`none` stands for a missing/invalid payload (the `!data || !data.value
|| !data.dimension` early return). -/
def formatEurostatData (data : Option EurostatPayload) (indicator : String) : List EuroDoc :=
  match data with
  | none => []
  | some p =>
    let dimSize := dimSizeOf p
    p.value.foldl
      (fun docs kv =>
        match formatEurostatEntry indicator p.geoIndex p.timeIndex dimSize kv with
        | none => docs
        | some d => docs ++ [d])
      []

/-- The mock Eurostat response of the end-to-end scenario: geo index
FI/DE, time index 2022/2023, dimension sizes [1,1,2,2], and four linear
observations. -/
def mockPayload : EurostatPayload :=
  { geoIndex := [("FI", 0), ("DE", 1)]
    timeIndex := [("2022", 0), ("2023", 1)]
    size := some [1, 1, 2, 2]
    value := [("0", some (mkRat 45 100)), ("1", some (mkRat 1 2)),
              ("2", some (mkRat 3 5)), ("3", some (mkRat 13 20))] }

/-- The first document the normalizer produces from `mockPayload` for
indicator cei_wm011 (FI, 2022, raw value 0.45). -/
def mockDoc1 : EuroDoc :=
  { date := "2022-06-15"
    country := "FI"
    countryName := "Finland"
    type := "statistic"
    typeName := "Eurostat Data"
    topic := "waste"
    topicName := "Municipal Waste Recycling"
    title := "Finland (2022): Municipal Waste Recycling 45.0%"
    compliance := "pending"
    sector := "circular-economy"
    source := "Eurostat"
    sourceUrl := "https://ec.europa.eu/eurostat/databrowser/view/cei_wm011/default/table"
    sourceBadge := "blue" }

/- ## EurostatAPIConnector (eurostat-api-connector.js) -/

/-- `formatValue(value, indicator)`: NaN (modelled as `none`) renders as
"N/A"; the percentage family renders `value.toFixed(1) + "%"` with no
scaling; the remaining cases follow the source's switch. -/
def formatValue (value : Option ℚ) (indicator : String) : String :=
  match value with
  | none => "N/A"
  | some v =>
    if indicator = "cei_srm030" ∨ indicator = "cei_wm011" ∨ indicator = "cei_cie011" then
      jsToFixed 1 v ++ "%"
    else if indicator = "cei_pc020" then
      jsToFixed 1 v ++ " tonnes"
    else if indicator = "cei_gsr010" then
      jsToFixed 0 v ++ " Mt CO2eq"
    else
      jsToFixed 1 v

/-- One entry of `processedData.values`. -/
structure ProcessedValue where
  key : String
  value : ℚ
  formatted : String
deriving DecidableEq

/-- The slice of `processCircularEconomyData`'s result that the
properties below inspect; the wall-clock `lastUpdated`, the raw
`metadata` pass-through and the KPI aggregate `data` are outside the
modelled fragment. -/
structure ProcessedData where
  indicator : String
  source : String
  values : List ProcessedValue
deriving DecidableEq

/-- One iteration of the `Object.keys(values).forEach` loop of
`processCircularEconomyData`: a `null`/`undefined` observation pushes
nothing, any other value is kept together with its formatted rendering. -/
def processedValueOf (indicator : String) (kv : String × Option ℚ) : Option ProcessedValue :=
  match kv.2 with
  | none => none
  | some v => some { key := kv.1, value := v, formatted := formatValue (some v) indicator }

/-- `processCircularEconomyData(eurostatData, indicator)` restricted to
the fields above. -/
def processCircularEconomyData (eurostatData : EurostatPayload) (indicator : String) :
    ProcessedData :=
  { indicator := indicator
    source := "Eurostat API"
    values :=
      eurostatData.value.foldl
        (fun acc kv =>
          match processedValueOf indicator kv with
          | none => acc
          | some r => acc ++ [r])
        [] }

/-- A cache entry: the raw payload plus the `Date.now()` timestamp (in
milliseconds) recorded when it was stored. -/
structure CacheEntry (D : Type) where
  data : D
  timestamp : ℕ
deriving DecidableEq

/-- `Map.prototype.get`-style lookup on the cache. -/
def cacheFind {D : Type} : List (String × CacheEntry D) → String → Option (CacheEntry D)
  | [], _ => none
  | kv :: rest, k => if kv.1 = k then some kv.2 else cacheFind rest k

/-- `Map.prototype.set`: replace the entry for an existing key, append
otherwise. -/
def cacheSet {D : Type} : List (String × CacheEntry D) → String → CacheEntry D →
    List (String × CacheEntry D)
  | [], k, e => [(k, e)]
  | kv :: rest, k, e => if kv.1 = k then (k, e) :: rest else kv :: cacheSet rest k e

/-- A network request, identified by the upstream service and the
dataset it targets; query parameters are not part of any property below
and are not modelled. -/
inductive NetRequest where
  | eurostat (dataset : String)
  | oecdStat (datasetCode : String)
  | compass (dataset : String)
deriving DecidableEq

/-- Result of one adapter call: the returned (or thrown) value, the
cache state after the call, and the network requests issued during it. -/
structure FetchOutcome (R D : Type) where
  result : Except String R
  cache : List (String × CacheEntry D)
  trace : List NetRequest

/-- `this.cacheExpiry = 30 * 60 * 1000` (30 minutes in milliseconds). -/
def eurostatCacheExpiry : ℕ := 30 * 60 * 1000

/-- `fetchEurostatData(dataset, options)` with the network as an oracle:
`net = some d` means the HTTP GET succeeds and decodes to `d`, `none`
means the request fails (network error, non-2xx status or undecodable
body — all of which are thrown and caught by the same handler).  A fresh
cache entry is served without a request; a successful fetch is cached;
on failure the cache is consulted once more and a (possibly expired)
entry is returned as-is, the error propagating only when no entry
exists.  The payload type is a parameter because the cache stores
whatever JSON the call produced. -/
def fetchEurostatData {D : Type} (cache : List (String × CacheEntry D)) (now : ℕ)
    (dataset optsStr : String) (net : Option D) : FetchOutcome D D :=
  let cacheKey := dataset ++ "_" ++ optsStr
  let fresh : Option D :=
    match cacheFind cache cacheKey with
    | some e => if now - e.timestamp < eurostatCacheExpiry then some e.data else none
    | none => none
  match fresh with
  | some d => { result := .ok d, cache := cache, trace := [] }
  | none =>
    match net with
    | some d =>
      { result := .ok d
        cache := cacheSet cache cacheKey { data := d, timestamp := now }
        trace := [NetRequest.eurostat dataset] }
    | none =>
      match cacheFind cache cacheKey with
      | some e => { result := .ok e.data, cache := cache, trace := [NetRequest.eurostat dataset] }
      | none =>
        { result := .error "Eurostat API request failed"
          cache := cache
          trace := [NetRequest.eurostat dataset] }

/-- The `indicatorMap` allow-list of `getCircularEconomyData`. -/
def eurostatIndicatorMap : List (String × String) :=
  [("cei_srm030", "cei_srm030"), ("cei_wm011", "cei_wm011"), ("cei_pc020", "cei_pc020"),
   ("cei_cie011", "cei_cie011"), ("cei_gsr010", "cei_gsr010")]

/-- `getCircularEconomyData(indicator, options)`: an indicator outside
the allow-list throws `Unknown indicator` before any fetch; otherwise
the payload is fetched (through the cache) and processed, fetch errors
being rethrown as `Eurostat API error`. -/
def getCircularEconomyData (cache : List (String × CacheEntry EurostatPayload)) (now : ℕ)
    (indicator optsStr : String) (net : Option EurostatPayload) :
    FetchOutcome ProcessedData EurostatPayload :=
  match jsGet eurostatIndicatorMap indicator with
  | none => { result := .error ("Unknown indicator: " ++ indicator), cache := cache, trace := [] }
  | some eurostatCode =>
    let f := fetchEurostatData cache now eurostatCode optsStr net
    match f.result with
    | .ok d =>
      { result := .ok (processCircularEconomyData d indicator), cache := f.cache, trace := f.trace }
    | .error m =>
      { result := .error ("Eurostat API error: " ++ m), cache := f.cache, trace := f.trace }

/-- The result shape §4.4 of the spec describes for the stale fallback:
the cached entry's JSON object with a `stale: true` field added.  This
definition follows the spec's words, for comparison with what
`fetchEurostatData` actually returns. -/
def staleMarkedSpec (d : List (String × String)) : List (String × String) :=
  d ++ [("stale", "true")]

/- ## OECDEnvironmentalConnector (oecd-environmental-connector.js) -/

/-- `this.cacheTimeout = 3600000` (1 hour in milliseconds). -/
def oecdCacheTimeout : ℕ := 3600000

/-- The `apiEndpoints` allow-list mapping dataset names to OECD.Stat
dataset codes. -/
def oecdApiEndpoints : List (String × String) :=
  [("MUNW", "MUNW"), ("MATERIAL_RESOURCES", "MATERIAL_RESOURCES"),
   ("GREEN_GROWTH", "GREEN_GROWTH"), ("WASTE_TREAT", "WASTE_TREAT"),
   ("CIRCULAR_ECONOMY", "CE"), ("RECYCLING", "RECYCLING")]

/-- An OECD.Stat SDMX response body: `dataSets`, each carrying its
`observations` map from colon-delimited key to observation array
(`[value, status, ...]`, `none` for `null`). -/
structure OecdRaw where
  dataSets : List (List (String × List (Option ℚ)))
deriving DecidableEq

/-- The slice of the parsed OECD response the properties below inspect:
the dataset tag and the extracted observation values.  The
per-observation dimension enrichment and the `lastUpdated`/`metadata`
fields are not needed by any property and are not modelled. -/
structure OecdParsed where
  dataset : String
  values : List ℚ
deriving DecidableEq

/-- `extractOECDStatObservations`: keep the first component of every
observation array when it is neither `null` nor `undefined`. -/
def extractOECDStatObservations (obs : List (String × List (Option ℚ))) : List ℚ :=
  obs.foldl
    (fun acc kv =>
      match kv.2.head? with
      | some (some v) => acc ++ [v]
      | _ => acc)
    []

/-- `parseOECDStatResponse`: an absent or empty `dataSets` array yields
the `No data available` error object, otherwise the first data set's
observations are extracted. -/
def parseOECDStatResponse (raw : OecdRaw) (dataset : String) : Except String OecdParsed :=
  match raw.dataSets with
  | [] => .error "No data available"
  | ds :: _ => .ok { dataset := dataset, values := extractOECDStatObservations ds }

/-- `fetchFromOECD(dataset, filters)`: a dataset outside `apiEndpoints`
throws `Unknown dataset` before any request (the internal catch turns it
into an error object); otherwise one GET is issued against OECD.Stat and
the response is parsed.  `netOECD = none` models a failed request. -/
def fetchFromOECD (dataset : String) (netOECD : Option OecdRaw) :
    Except String OecdParsed × List NetRequest :=
  match jsGet oecdApiEndpoints dataset with
  | none => (.error ("Unknown dataset: " ++ dataset), [])
  | some code =>
    match netOECD with
    | none => (.error "OECD.Stat API request failed", [NetRequest.oecdStat code])
    | some raw => (parseOECDStatResponse raw dataset, [NetRequest.oecdStat code])

/-- `fetchFromCompass(dataset, filters)`: one POST is always issued to
the compass fallback service; `netCompass` is the decoded body (which
may itself be an error object) or `none` for a failed request. -/
def fetchFromCompass (dataset : String) (netCompass : Option (Except String OecdParsed)) :
    Except String OecdParsed × List NetRequest :=
  (match netCompass with
   | some d => d
   | none => .error "Compass API request failed",
   [NetRequest.compass dataset])

/-- `getEnvironmentalData(dataset, filters)`: a fresh cache entry is
served without any request; otherwise the direct OECD.Stat call is
attempted and, when it produced an error object, the compass fallback is
called; a non-error result is cached. -/
def getEnvironmentalData (cache : List (String × CacheEntry OecdParsed)) (now : ℕ)
    (dataset filtersStr : String) (netOECD : Option OecdRaw)
    (netCompass : Option (Except String OecdParsed)) : FetchOutcome OecdParsed OecdParsed :=
  let cacheKey := dataset ++ "_" ++ filtersStr
  let fresh : Option OecdParsed :=
    match cacheFind cache cacheKey with
    | some e => if now - e.timestamp < oecdCacheTimeout then some e.data else none
    | none => none
  match fresh with
  | some d => { result := .ok d, cache := cache, trace := [] }
  | none =>
    let direct := fetchFromOECD dataset netOECD
    let outcome :=
      match direct.1 with
      | .ok d => (Except.ok d, direct.2)
      | .error _ =>
        let fb := fetchFromCompass dataset netCompass
        (fb.1, direct.2 ++ fb.2)
    match outcome.1 with
    | .ok d =>
      { result := .ok d
        cache := cacheSet cache cacheKey { data := d, timestamp := now }
        trace := outcome.2 }
    | .error m => { result := .error m, cache := cache, trace := outcome.2 }

/- ## Stubbed OECD decomposition helpers (sparql-data.js) -/

/-- `extractOECDDate(key, structure)`: the source returns the fixed
placeholder date without consulting either argument. -/
def extractOECDDate {α β : Type} (_key : α) (_struct : β) : String := "2025-01-01"

/-- `extractOECDCountry(key, structure)`: the source returns `null`
without consulting either argument. -/
def extractOECDCountry {α β : Type} (_key : α) (_struct : β) : Option String := none

/- ## Result filter (demo.js `filterResults`) -/

/-- The `currentFilters` record. -/
structure Filters where
  dateFrom : String
  dateTo : String
  countries : List String
  docTypes : List String
  topics : List String
  sectors : List String
  language : String
  compliance : String
  search : String
deriving DecidableEq

/-- The initial `currentFilters` value of demo.js. -/
def defaultFilters : Filters :=
  { dateFrom := "2018-01-01"
    dateTo := "2023-12-31"
    countries := ["all"]
    docTypes := ["all"]
    topics := ["all"]
    sectors := ["all"]
    language := "en"
    compliance := "all"
    search := "" }

/-- The concatenated haystack the search filter matches against:
`[title, countryName || country, indicator || '', topicName || topic,
value || ''].join(' ')`. -/
def searchFieldsOf (d : EuroDoc) : String :=
  String.intercalate " "
    [d.title, jsOrDefault (some d.countryName) d.country, (d.indicator).getD "",
     jsOrDefault (some d.topicName) d.topic, (d.value).getD ""]

/-- The predicate of `liveDocuments.filter(doc => ...)`, with the same
early-return structure as the source: date window, country, type,
topic, sector, compliance, then the case-insensitive search. -/
def filterPred (f : Filters) (d : EuroDoc) : Bool :=
  if jsStrLt d.date f.dateFrom || jsStrLt f.dateTo d.date then false
  else if !listHas f.countries "all" && !listHas f.countries d.country then false
  else if !listHas f.docTypes "all" && !listHas f.docTypes d.type then false
  else if !listHas f.topics "all" && !listHas f.topics d.topic then false
  else if !listHas f.sectors "all" && !listHas f.sectors d.sector then false
  else if !(decide (f.compliance = "all")) && !(decide (d.compliance = f.compliance)) then false
  else if !(decide (f.search = "")) && decide (0 < f.search.trim.length) then
    strIncludes (searchFieldsOf d).toLower (f.search.toLower)
  else true

/-- `filterResults()`: a pure `Array.prototype.filter` over the loaded
documents. -/
def filterResults (f : Filters) (docs : List EuroDoc) : List EuroDoc :=
  docs.filter (filterPred f)

/-- Date-window conjunct of the filter. -/
def dateOk (f : Filters) (d : EuroDoc) : Bool :=
  !(jsStrLt d.date f.dateFrom || jsStrLt f.dateTo d.date)

/-- Country conjunct: "all" is a wildcard. -/
def countryOk (f : Filters) (d : EuroDoc) : Bool :=
  listHas f.countries "all" || listHas f.countries d.country

/-- Document-type conjunct: "all" is a wildcard. -/
def typeOk (f : Filters) (d : EuroDoc) : Bool :=
  listHas f.docTypes "all" || listHas f.docTypes d.type

/-- Topic conjunct: "all" is a wildcard. -/
def topicOk (f : Filters) (d : EuroDoc) : Bool :=
  listHas f.topics "all" || listHas f.topics d.topic

/-- Sector conjunct: "all" is a wildcard. -/
def sectorOk (f : Filters) (d : EuroDoc) : Bool :=
  listHas f.sectors "all" || listHas f.sectors d.sector

/-- Compliance conjunct: "all" is a wildcard. -/
def complianceOk (f : Filters) (d : EuroDoc) : Bool :=
  decide (f.compliance = "all") || decide (d.compliance = f.compliance)

/-- Search conjunct: an empty or all-whitespace search text always
passes. -/
def searchOk (f : Filters) (d : EuroDoc) : Bool :=
  if !(decide (f.search = "")) && decide (0 < f.search.trim.length) then
    strIncludes (searchFieldsOf d).toLower (f.search.toLower)
  else true

/-- An in-window Finnish record, shaped like normalizer output. -/
def docFI : EuroDoc :=
  { date := "2023-06-15", country := "FI", countryName := "Finland", type := "statistic"
    typeName := "Eurostat Data", topic := "material", topicName := "Circular Material Use Rate"
    title := "Finland (2023): Circular Material Use Rate 12.8%", compliance := "pending"
    sector := "circular-economy", source := "Eurostat"
    sourceUrl := "https://ec.europa.eu/eurostat/databrowser/view/cei_srm030/default/table"
    sourceBadge := "blue" }

/-- An in-window German record, shaped like normalizer output. -/
def docDE : EuroDoc :=
  { date := "2023-06-15", country := "DE", countryName := "Germany", type := "statistic"
    typeName := "Eurostat Data", topic := "material", topicName := "Circular Material Use Rate"
    title := "Germany (2023): Circular Material Use Rate 11.5%", compliance := "pending"
    sector := "circular-economy", source := "Eurostat"
    sourceUrl := "https://ec.europa.eu/eurostat/databrowser/view/cei_srm030/default/table"
    sourceBadge := "blue" }

/-- A Finnish record dated after the default window (`2024-06-15` is a
date the normalizer produces for a year-2024 observation, which passes
the 2018 cutoff). -/
def docFI2024 : EuroDoc :=
  { date := "2024-06-15", country := "FI", countryName := "Finland", type := "statistic"
    typeName := "Eurostat Data", topic := "material", topicName := "Circular Material Use Rate"
    title := "Finland (2024): Circular Material Use Rate 13.1%", compliance := "pending"
    sector := "circular-economy", source := "Eurostat"
    sourceUrl := "https://ec.europa.eu/eurostat/databrowser/view/cei_srm030/default/table"
    sourceBadge := "blue" }

/- ## Helper lemmas -/

theorem jsMulNat_eq (q : ℚ) (n : ℕ) : jsMulNat q n = q * n := by
  unfold jsMulNat
  rw [Rat.mkRat_eq_div]
  conv_rhs => rw [← Rat.num_div_den q]
  push_cast
  ring

theorem jsHalf_eq : jsHalf = 1 / 2 := by
  unfold jsHalf
  rw [Rat.mkRat_eq_div]
  norm_num

theorem cacheFind_set_self {D : Type} (c : List (String × CacheEntry D)) (k : String)
    (e : CacheEntry D) : cacheFind (cacheSet c k e) k = some e := by
  induction c with
  | nil => simp [cacheSet, cacheFind]
  | cons kv rest ih =>
    by_cases h : kv.1 = k <;> simp [cacheSet, cacheFind, h, ih]

theorem filterListCongr {α : Type} (p q : α → Bool) :
    ∀ (l : List α), (∀ x ∈ l, p x = q x) → l.filter p = l.filter q := by
  intro l
  induction l with
  | nil => intro _; rfl
  | cons x xs ih =>
    intro h
    have hx := h x (List.mem_cons_self x xs)
    have hrest := ih fun y hy => h y (List.mem_cons_of_mem x hy)
    simp [List.filter_cons, hx, hrest]

theorem filterListTrue {α : Type} (p : α → Bool) :
    ∀ (l : List α), (∀ x ∈ l, p x = true) → l.filter p = l := by
  intro l
  induction l with
  | nil => intro _; rfl
  | cons x xs ih =>
    intro h
    have hx := h x (List.mem_cons_self x xs)
    have hrest := ih fun y hy => h y (List.mem_cons_of_mem x hy)
    simp [List.filter_cons, hx, hrest]

theorem boolIfFalse (c r : Bool) : (if c then false else r) = (!c && r) := by
  cases c <;> simp

theorem listHas_singleton (a x : String) : listHas [a] x = decide (x = a) := by
  by_cases h : a = x
  · subst h; simp [listHas]
  · have h2 : ¬x = a := fun hh => h hh.symm
    simp [listHas, h, h2]

theorem processValues_aux (ind : String) :
    ∀ (l : List (String × Option ℚ)) (acc : List ProcessedValue),
      List.foldl
        (fun acc kv =>
          match processedValueOf ind kv with
          | none => acc
          | some r => acc ++ [r])
        acc l = acc ++ l.filterMap (processedValueOf ind) := by
  intro l
  induction l with
  | nil => intro acc; simp
  | cons kv rest ih =>
    intro acc
    cases h : processedValueOf ind kv <;>
      simp [List.foldl_cons, List.filterMap_cons, h, ih]

theorem processValues_eq (p : EurostatPayload) (ind : String) :
    (processCircularEconomyData p ind).values = p.value.filterMap (processedValueOf ind) := by
  simpa using processValues_aux ind p.value []

theorem formatEurostatData_aux (ind : String) (gI tI : List (String × ℕ)) (dims : List ℕ) :
    ∀ (l : List (String × Option ℚ)) (acc : List EuroDoc),
      List.foldl
        (fun docs kv =>
          match formatEurostatEntry ind gI tI dims kv with
          | none => docs
          | some d => docs ++ [d])
        acc l = acc ++ l.filterMap (formatEurostatEntry ind gI tI dims) := by
  intro l
  induction l with
  | nil => intro acc; simp
  | cons kv rest ih =>
    intro acc
    cases h : formatEurostatEntry ind gI tI dims kv <;>
      simp [List.foldl_cons, List.filterMap_cons, h, ih]

theorem formatEurostatData_eq (p : EurostatPayload) (ind : String) :
    formatEurostatData (some p) ind
      = p.value.filterMap (formatEurostatEntry ind p.geoIndex p.timeIndex (dimSizeOf p)) := by
  simpa [formatEurostatData] using
    formatEurostatData_aux ind p.geoIndex p.timeIndex (dimSizeOf p) p.value []

theorem formatEurostatObsCore_inv (ind : String) (gI tI : List (String × ℕ)) (dims : List ℕ)
    (k : String) (v : ℚ) (doc : EuroDoc)
    (h : formatEurostatObsCore ind gI tI dims k v = some doc) :
    ∃ yr : String, passesYearCutoff yr = true ∧ doc.date = yr ++ "-06-15" ∧
      doc.compliance = (if jsHalf < v then "compliant" else "pending") ∧
      ∃ pre : String, doc.title = pre ++ demoFormattedValue ind v := by
  simp only [formatEurostatObsCore] at h
  split at h
  case isTrue hp =>
    refine ⟨_, hp, ?_, ?_, ?_⟩
    · rw [← Option.some.inj h]
    · rw [← Option.some.inj h]
    · exact ⟨_, by rw [← Option.some.inj h]⟩
  case isFalse hp => exact Option.noConfusion h

/- ## Claim theorems -/

/-- C9: for every observation key and structure argument,
`extractOECDDate` returns the fixed default "2025-01-01" and
`extractOECDCountry` returns null — the OECD linear-index decomposition
functions are stubs whose result never depends on their inputs. -/
theorem spec_c9 : ∀ (α β : Type) (key : α) (struct : β),
    extractOECDDate key struct = "2025-01-01" ∧ extractOECDCountry key struct = none :=
  fun _ _ _ _ => ⟨rfl, rfl⟩

/-- C2, counterexample: with an expired cache entry `[("obs", "1")]` and
a failing fetch, `fetchEurostatData` returns exactly the cached object —
it has no "stale" field at all and differs from the spec's
stale-marked result. -/
theorem spec_c2_cex :
    (fetchEurostatData [("cei_srm030_o", { data := [("obs", "1")], timestamp := 0 })]
        (2 * eurostatCacheExpiry) "cei_srm030" "o" none).result = .ok [("obs", "1")] ∧
    jsGet [("obs", "1")] "stale" = none ∧
    (Except.ok [("obs", "1")] : Except String (List (String × String))) ≠
      .ok (staleMarkedSpec [("obs", "1")]) := by
  refine ⟨rfl, rfl, fun h => ?_⟩
  have := Except.ok.inj h
  simp [staleMarkedSpec] at this

/-- C2, amended: when the fetch attempt fails, `fetchEurostatData`
returns the cached entry's data unchanged — with no `stale: true`
marker — whenever any (possibly expired) entry exists for the key, and
propagates the error exactly when no entry exists. -/
theorem spec_c2 : ∀ (D : Type) (cache : List (String × CacheEntry D)) (now : ℕ)
    (ds opts : String),
    (fetchEurostatData cache now ds opts none).result =
      (match cacheFind cache (ds ++ "_" ++ opts) with
       | some e => .ok e.data
       | none => .error "Eurostat API request failed") := by
  intro D cache now ds opts
  unfold fetchEurostatData
  cases h : cacheFind cache (ds ++ "_" ++ opts) with
  | none => simp [h]
  | some e =>
    by_cases hc : now - e.timestamp < eurostatCacheExpiry <;> simp [h, hc]

/-- C4, counterexample: for the dataset "WATER", which is absent from
the OECD adapter's allow-list, `getEnvironmentalData` still issues a
network request — the compass fallback — and can even succeed through
it, so the unknown-dataset error path does reach the network. -/
theorem spec_c4_cex :
    (getEnvironmentalData [] 0 "WATER" "f" none
        (some (.ok { dataset := "WATER", values := [] }))).trace =
      [NetRequest.compass "WATER"] ∧
    (getEnvironmentalData [] 0 "WATER" "f" none
        (some (.ok { dataset := "WATER", values := [] }))).result =
      .ok { dataset := "WATER", values := [] } :=
  ⟨rfl, rfl⟩

/-- C4, amended: the Eurostat adapter fails fast on an unknown
indicator — error before any network request, cache untouched; the OECD
adapter issues no OECD.Stat request for an unknown dataset, but (absent
a cache hit) it always issues exactly one compass-fallback request, so
its unknown-dataset path does reach the network. -/
theorem spec_c4 :
    (∀ (cache : List (String × CacheEntry EurostatPayload)) (now : ℕ) (ind opts : String)
       (net : Option EurostatPayload), jsGet eurostatIndicatorMap ind = none →
       (getCircularEconomyData cache now ind opts net).result =
           .error ("Unknown indicator: " ++ ind) ∧
         (getCircularEconomyData cache now ind opts net).trace = [] ∧
         (getCircularEconomyData cache now ind opts net).cache = cache) ∧
    (∀ (now : ℕ) (ds fl : String) (netO : Option OecdRaw)
       (netC : Option (Except String OecdParsed)), jsGet oecdApiEndpoints ds = none →
       (getEnvironmentalData [] now ds fl netO netC).trace = [NetRequest.compass ds]) := by
  constructor
  · intro cache now ind opts net h
    simp [getCircularEconomyData, h]
  · intro now ds fl netO netC h
    cases netC with
    | none => simp [getEnvironmentalData, fetchFromOECD, fetchFromCompass, cacheFind, h]
    | some r =>
      cases r <;>
        simp [getEnvironmentalData, fetchFromOECD, fetchFromCompass, cacheFind, h]

/-- C4, witness: concrete unknown codes exercising both conjuncts. -/
theorem spec_c4_witness :
    (getCircularEconomyData [] 0 "bogus" "x" none).result =
        .error ("Unknown indicator: " ++ "bogus") ∧
    (getEnvironmentalData [] 5 "BOGUS" "y" none none).trace = [NetRequest.compass "BOGUS"] :=
  ⟨(spec_c4.1 [] 0 "bogus" "x" none (by decide)).1,
   spec_c4.2 5 "BOGUS" "y" none none (by decide)⟩

theorem mappedValues_eq (ind : String) :
    ∀ l : List (String × Option ℚ),
      (l.filterMap (processedValueOf ind)).map (fun e => (e.key, some e.value))
        = l.filter (fun kv => kv.2.isSome) := by
  intro l
  induction l with
  | nil => rfl
  | cons kv rest ih =>
    rcases kv with ⟨k, v⟩
    cases v <;> simp [processedValueOf, List.filterMap_cons, List.filter_cons, ih]

theorem dimSizeOf_value (p : EurostatPayload) (X : List (String × Option ℚ)) :
    dimSizeOf { p with value := X } = dimSizeOf p := rfl

/-- C1: the normalizer recovers per-dimension indices from a linear
observation key by row-major decomposition with time fastest-varying —
`timeIdx = n % s3`, `geoIdx = n / s3 % s2` — and, on the end-to-end
mock payload (sizes [1,1,2,2], geo FI/DE, time 2022/2023, values
0.45/0.50/0.60/0.65), produces exactly the four (country, year) records
with those values. -/
theorem spec_c1 :
    (∀ (s0 s1 s2 s3 n : ℕ) (k : String),
       0 < s2 → 0 < s3 → strIncludes k ":" = false → jsParseNat k = some n →
       decomposeObsKey [s0, s1, s2, s3] k = (some (n / s3 % s2), some (n % s3))) ∧
    ((formatEurostatData (some mockPayload) "cei_wm011").map
        (fun d => (d.country, d.date, d.title)) =
      [("FI", "2022-06-15", "Finland (2022): Municipal Waste Recycling 45.0%"),
       ("FI", "2023-06-15", "Finland (2023): Municipal Waste Recycling 50.0%"),
       ("DE", "2022-06-15", "Germany (2022): Municipal Waste Recycling 60.0%"),
       ("DE", "2023-06-15", "Germany (2023): Municipal Waste Recycling 65.0%")]) := by
  constructor
  · intro s0 s1 s2 s3 n k h2 h3 hinc hparse
    have h2' : s2 ≠ 0 := Nat.pos_iff_ne_zero.mp h2
    have h3' : s3 ≠ 0 := Nat.pos_iff_ne_zero.mp h3
    simp only [decomposeObsKey, hinc, hparse]
    simp [h2', h3', List.getD]
  · decide

/-- C1, witness: linear key "3" under sizes [1,1,2,2] decomposes to
geo index 1 and time index 1. -/
theorem spec_c1_witness : decomposeObsKey [1, 1, 2, 2] "3" = (some 1, some 1) :=
  spec_c1.1 1 1 2 2 3 "3" (by decide) (by decide) (by decide) (by decide)

/-- C5: null/undefined observations are skipped by both normalizers (a
null entry anywhere in the observation map leaves the output unchanged),
and every emitted `values` entry of the connector's processed data
carries exactly the numeric rational of a non-null observation — so no
NaN and no coerced zero ever reaches the output sequence. -/
theorem spec_c5 :
    (∀ (p : EurostatPayload) (ind k : String) (pre post : List (String × Option ℚ)),
       formatEurostatData (some { p with value := pre ++ (k, none) :: post }) ind
         = formatEurostatData (some { p with value := pre ++ post }) ind) ∧
    (∀ (p : EurostatPayload) (ind : String),
       (processCircularEconomyData p ind).values.map (fun e => (e.key, some e.value))
         = p.value.filter (fun kv => kv.2.isSome)) ∧
    (∀ (p : EurostatPayload) (ind k : String) (pre post : List (String × Option ℚ)),
       (processCircularEconomyData { p with value := pre ++ (k, none) :: post } ind).values
         = (processCircularEconomyData { p with value := pre ++ post } ind).values) := by
  refine ⟨?_, ?_, ?_⟩
  · intro p ind k pre post
    rw [formatEurostatData_eq, formatEurostatData_eq]
    simp [List.filterMap_append, List.filterMap_cons, formatEurostatEntry, dimSizeOf_value]
  · intro p ind
    rw [processValues_eq]
    exact mappedValues_eq ind p.value
  · intro p ind k pre post
    rw [processValues_eq, processValues_eq]
    simp [List.filterMap_append, List.filterMap_cons, processedValueOf]

/-- C6: the TTL defaults are 30 minutes (Eurostat) and 60 minutes
(OECD), and for every cache key two consecutive fetches within the TTL
window, the first of which succeeds, issue exactly one network call: the
first call performs the single request and populates the cache, the
second is served from it without any request. -/
theorem spec_c6 :
    eurostatCacheExpiry = 30 * 60 * 1000 ∧ oecdCacheTimeout = 60 * 60 * 1000 ∧
    (∀ (cache : List (String × CacheEntry EurostatPayload)) (t1 t2 : ℕ) (ds opts : String)
       (d : EurostatPayload) (net2 : Option EurostatPayload),
       cacheFind cache (ds ++ "_" ++ opts) = none → t2 - t1 < eurostatCacheExpiry →
       (fetchEurostatData cache t1 ds opts (some d)).trace = [NetRequest.eurostat ds] ∧
       (fetchEurostatData cache t1 ds opts (some d)).result = .ok d ∧
       (fetchEurostatData (fetchEurostatData cache t1 ds opts (some d)).cache t2 ds opts
           net2).trace = [] ∧
       (fetchEurostatData (fetchEurostatData cache t1 ds opts (some d)).cache t2 ds opts
           net2).result = .ok d) ∧
    (∀ (cache : List (String × CacheEntry OecdParsed)) (t1 t2 : ℕ) (ds fl : String)
       (raw : OecdRaw) (p : OecdParsed) (code : String) (net2o : Option OecdRaw)
       (net2c netc1 : Option (Except String OecdParsed)),
       cacheFind cache (ds ++ "_" ++ fl) = none → jsGet oecdApiEndpoints ds = some code →
       parseOECDStatResponse raw ds = .ok p → t2 - t1 < oecdCacheTimeout →
       (getEnvironmentalData cache t1 ds fl (some raw) netc1).trace = [NetRequest.oecdStat code] ∧
       (getEnvironmentalData cache t1 ds fl (some raw) netc1).result = .ok p ∧
       (getEnvironmentalData (getEnvironmentalData cache t1 ds fl (some raw) netc1).cache t2
           ds fl net2o net2c).trace = [] ∧
       (getEnvironmentalData (getEnvironmentalData cache t1 ds fl (some raw) netc1).cache t2
           ds fl net2o net2c).result = .ok p) := by
  refine ⟨rfl, by norm_num [oecdCacheTimeout], ?_, ?_⟩
  · intro cache t1 t2 ds opts d net2 hmiss hfresh
    have hkey := cacheFind_set_self cache (ds ++ "_" ++ opts) { data := d, timestamp := t1 }
    refine ⟨?_, ?_, ?_, ?_⟩ <;> simp [fetchEurostatData, hmiss, hkey, hfresh]
  · intro cache t1 t2 ds fl raw p code net2o net2c netc1 hmiss hcode hparse hfresh
    have hkey := cacheFind_set_self cache (ds ++ "_" ++ fl) { data := p, timestamp := t1 }
    refine ⟨?_, ?_, ?_, ?_⟩ <;>
      simp [getEnvironmentalData, fetchFromOECD, hmiss, hcode, hparse, hkey, hfresh]

/-- C6, witness: concrete back-to-back fetches for both connectors. -/
theorem spec_c6_witness :
    (fetchEurostatData [] 0 "cei_srm030" "o" (some mockPayload)).trace =
        [NetRequest.eurostat "cei_srm030"] ∧
    (fetchEurostatData (fetchEurostatData [] 0 "cei_srm030" "o" (some mockPayload)).cache 1
        "cei_srm030" "o" none).trace = [] ∧
    (getEnvironmentalData [] 0 "MUNW" "f"
        (some { dataSets := [[("0:0", [some (mkRat 7 10)])]] }) none).trace =
      [NetRequest.oecdStat "MUNW"] ∧
    (getEnvironmentalData
        (getEnvironmentalData [] 0 "MUNW" "f"
          (some { dataSets := [[("0:0", [some (mkRat 7 10)])]] }) none).cache
        1 "MUNW" "f" none none).trace = [] := by
  have h1 := spec_c6.2.2.1 [] 0 1 "cei_srm030" "o" mockPayload none rfl (by decide)
  have h2 := spec_c6.2.2.2 [] 0 1 "MUNW" "f"
    { dataSets := [[("0:0", [some (mkRat 7 10)])]] }
    { dataset := "MUNW", values := [mkRat 7 10] } "MUNW" none none none rfl (by decide) rfl
    (by decide)
  exact ⟨h1.1, h1.2.2.1, h2.1, h2.2.2.1⟩

/-- C3, counterexample: for the percentage indicator cei_wm011 and the
observation value 2, the live-data normalizer renders "200.0%" while
the connector's `formatValue` renders "2.0%" — the two formatters
disagree on the same value. -/
theorem spec_c3_cex :
    demoFormattedValue "cei_wm011" (mkRat 2 1) = "200.0%" ∧
    formatValue (some (mkRat 2 1)) "cei_wm011" = "2.0%" ∧
    demoFormattedValue "cei_wm011" (mkRat 2 1) ≠ formatValue (some (mkRat 2 1)) "cei_wm011" :=
  ⟨by decide, by decide, by decide⟩

/-- C3, amended: for the percentage family the live-data normalizer's
formatting equals the connector's `formatValue` applied to the value
scaled by 100 — the two paths differ exactly by that factor-100 scaling
(the normalizer multiplies by 100 before `toFixed(1)`, `formatValue`
does not); every normalizer record's title ends in the normalizer's
rendering of its raw observation value. -/
theorem spec_c3 :
    (∀ (v : ℚ) (ind : String),
       ind = "cei_srm030" ∨ ind = "cei_wm011" ∨ ind = "cei_cie011" →
       demoFormattedValue ind v = formatValue (some (100 * v)) ind) ∧
    (∀ (ind : String) (gI tI : List (String × ℕ)) (dims : List ℕ) (k : String) (v : ℚ)
       (doc : EuroDoc), formatEurostatObsCore ind gI tI dims k v = some doc →
       ∃ pre : String, doc.title = pre ++ demoFormattedValue ind v) := by
  constructor
  · intro v ind h
    simp only [demoFormattedValue, formatValue]
    rw [if_pos h, if_pos h]
    rw [show jsMulNat v 100 = 100 * v from by rw [jsMulNat_eq]; ring]
  · intro ind gI tI dims k v doc h
    obtain ⟨yr, _, _, _, pre, ht⟩ := formatEurostatObsCore_inv ind gI tI dims k v doc h
    exact ⟨pre, ht⟩

/-- C3, witness: the scaled agreement at cei_wm011 and 0.45, and the
concrete mock record whose title ends in the normalizer's rendering. -/
theorem spec_c3_witness :
    demoFormattedValue "cei_wm011" (mkRat 45 100) =
        formatValue (some (100 * mkRat 45 100)) "cei_wm011" ∧
    ∃ pre : String, mockDoc1.title = pre ++ demoFormattedValue "cei_wm011" (mkRat 45 100) :=
  ⟨spec_c3.1 (mkRat 45 100) "cei_wm011" (Or.inr (Or.inl rfl)),
   spec_c3.2 "cei_wm011" [("FI", 0), ("DE", 1)] [("2022", 0), ("2023", 1)] [1, 1, 2, 2] "0"
     (mkRat 45 100) mockDoc1 (by decide)⟩

/-- C8: every record the normalizer outputs carries a date built from a
resolved year that does not parse to a value below the 2018 cutoff —
observations whose resolved year predates 2018 are dropped. -/
theorem spec_c8 :
    ∀ (p : EurostatPayload) (ind : String) (doc : EuroDoc),
      doc ∈ formatEurostatData (some p) ind →
      ∃ yr : String, doc.date = yr ++ "-06-15" ∧
        ∀ y : ℤ, jsParseInt yr = some y → 2018 ≤ y := by
  intro p ind doc hmem
  rw [formatEurostatData_eq] at hmem
  obtain ⟨kv, _, hkv⟩ := List.mem_filterMap.mp hmem
  rcases kv with ⟨k, v⟩
  cases v with
  | none => exact Option.noConfusion hkv
  | some v =>
    obtain ⟨yr, hpass, hdate, _, _⟩ :=
      formatEurostatObsCore_inv ind p.geoIndex p.timeIndex (dimSizeOf p) k v doc hkv
    refine ⟨yr, hdate, fun y hy => ?_⟩
    unfold passesYearCutoff at hpass
    rw [hy] at hpass
    exact of_decide_eq_true hpass

/-- C8, witness: the mock FI/2022 record is in the output and its date
decomposes with a year at or above the cutoff. -/
theorem spec_c8_witness :
    mockDoc1 ∈ formatEurostatData (some mockPayload) "cei_wm011" ∧
    ∃ yr : String, mockDoc1.date = yr ++ "-06-15" ∧
      ∀ y : ℤ, jsParseInt yr = some y → 2018 ≤ y :=
  ⟨by decide, spec_c8 mockPayload "cei_wm011" mockDoc1 (by decide)⟩

/-- C10: every normalizer record is tagged "compliant" exactly when the
raw observation value exceeds 0.5 and "pending" otherwise; the threshold
applies to the raw pre-scaling value, so the mock cei_wm011 record with
formatted value "45.0%" (raw 0.45) is tagged "pending", and the mock
run's tags are pending/pending/compliant/compliant for raw values
0.45/0.50/0.60/0.65. -/
theorem spec_c10 :
    (∀ (ind : String) (gI tI : List (String × ℕ)) (dims : List ℕ) (k : String) (v : ℚ)
       (doc : EuroDoc), formatEurostatObsCore ind gI tI dims k v = some doc →
       doc.compliance = if (1 : ℚ) / 2 < v then "compliant" else "pending") ∧
    ((formatEurostatData (some mockPayload) "cei_wm011").map (fun d => d.compliance) =
      ["pending", "pending", "compliant", "compliant"]) ∧
    (mockDoc1.title = "Finland (2022): Municipal Waste Recycling 45.0%" ∧
     mockDoc1.compliance = "pending") := by
  refine ⟨?_, by decide, rfl, rfl⟩
  intro ind gI tI dims k v doc h
  obtain ⟨_, _, _, hc, _⟩ := formatEurostatObsCore_inv ind gI tI dims k v doc h
  rw [hc]
  simp [jsHalf_eq]

/-- C10, witness: the threshold equation applied to the concrete mock
record for raw value 0.45. -/
theorem spec_c10_witness :
    mockDoc1.compliance = if (1 : ℚ) / 2 < mkRat 45 100 then "compliant" else "pending" :=
  spec_c10.1 "cei_wm011" [("FI", 0), ("DE", 1)] [("2022", 0), ("2023", 1)] [1, 1, 2, 2] "0"
    (mkRat 45 100) mockDoc1 (by decide)

theorem filterPred_conj (f : Filters) (d : EuroDoc) :
    filterPred f d = (dateOk f d && countryOk f d && typeOk f d && topicOk f d &&
      sectorOk f d && complianceOk f d && searchOk f d) := by
  unfold filterPred dateOk countryOk typeOk topicOk sectorOk complianceOk searchOk
  rw [boolIfFalse, boolIfFalse, boolIfFalse, boolIfFalse, boolIfFalse, boolIfFalse]
  simp [Bool.not_and, Bool.not_not, Bool.and_assoc]

theorem filterPred_defaultish (cs : List String) (d : EuroDoc) :
    filterPred { defaultFilters with countries := cs } d
      = (dateOk defaultFilters d && (listHas cs "all" || listHas cs d.country)) := by
  rw [filterPred_conj]
  have ht : typeOk { defaultFilters with countries := cs } d = true := rfl
  have hto : topicOk { defaultFilters with countries := cs } d = true := rfl
  have hs : sectorOk { defaultFilters with countries := cs } d = true := rfl
  have hc : complianceOk { defaultFilters with countries := cs } d = true := rfl
  have hse : searchOk { defaultFilters with countries := cs } d = true := rfl
  have hd : dateOk { defaultFilters with countries := cs } d = dateOk defaultFilters d := rfl
  have hco : countryOk { defaultFilters with countries := cs } d
      = (listHas cs "all" || listHas cs d.country) := rfl
  rw [ht, hto, hs, hc, hse, hd, hco]
  simp [Bool.and_true]

/-- C7, counterexample: for the record set containing only a
(normalizer-shaped) record dated 2024-06-15 with country FI, applying
the filter specification with `countries := ["FI"]` (all other fields at
their defaults, including the default 2018-01-01..2023-12-31 date
window) yields the empty list rather than the country-FI subset, and the
all-wildcard specification does not yield the original set — the
always-active date-range conjunct breaks the claimed subset and identity
laws. -/
theorem spec_c7_cex :
    filterResults { defaultFilters with countries := ["FI"] } [docFI2024] = [] ∧
    List.filter (fun d => decide (d.country = "FI")) [docFI2024] = [docFI2024] ∧
    filterResults defaultFilters [docFI2024] = [] ∧
    ([] : List EuroDoc) ≠ [docFI2024] :=
  ⟨by decide, by decide, by decide, by decide⟩

/-- C7, amended: filtering is a pure conjunction of independent
predicates applied as an order-preserving sublist selection, with "all"
a wildcard for the country predicate (and its peers); the claimed
instances hold once the always-active date-range predicate is accounted
for: for record sets whose dates lie inside the specification's date
window, `countries := ["FI"]` selects exactly the country-FI subset and
the all-wildcard specification is the identity. -/
theorem spec_c7 :
    (∀ (f : Filters) (docs : List EuroDoc), List.Sublist (filterResults f docs) docs) ∧
    (∀ (f : Filters) (d : EuroDoc),
       filterPred f d = (dateOk f d && countryOk f d && typeOk f d && topicOk f d &&
         sectorOk f d && complianceOk f d && searchOk f d)) ∧
    (∀ (f : Filters) (d : EuroDoc), listHas f.countries "all" = true → countryOk f d = true) ∧
    (∀ docs : List EuroDoc, (∀ d ∈ docs, dateOk defaultFilters d = true) →
       filterResults { defaultFilters with countries := ["FI"] } docs
         = docs.filter (fun d => decide (d.country = "FI"))) ∧
    (∀ docs : List EuroDoc, (∀ d ∈ docs, dateOk defaultFilters d = true) →
       filterResults defaultFilters docs = docs) := by
  refine ⟨?_, filterPred_conj, ?_, ?_, ?_⟩
  · intro f docs
    exact List.filter_sublist docs
  · intro f d h
    simp [countryOk, h]
  · intro docs h
    unfold filterResults
    refine filterListCongr _ _ docs fun d hd => ?_
    rw [filterPred_defaultish, h d hd]
    simp [listHas_singleton, show (decide (("all" : String) = "FI")) = false from by decide]
  · intro docs h
    unfold filterResults
    refine filterListTrue _ docs fun d hd => ?_
    have hp : filterPred defaultFilters d
        = (dateOk defaultFilters d && (listHas ["all"] "all" || listHas ["all"] d.country)) :=
      filterPred_defaultish ["all"] d
    rw [hp, h d hd]
    rfl

/-- C7, witness: on an in-window two-record set, the FI specification
selects exactly the FI subset and the all-wildcard specification is the
identity. -/
theorem spec_c7_witness :
    filterResults { defaultFilters with countries := ["FI"] } [docFI, docDE]
        = List.filter (fun d => decide (d.country = "FI")) [docFI, docDE] ∧
    filterResults defaultFilters [docFI, docDE] = [docFI, docDE] :=
  ⟨spec_c7.2.2.2.1 [docFI, docDE] (by decide), spec_c7.2.2.2.2 [docFI, docDE] (by decide)⟩
